import Mathlib

/-!
Shallow embedding of the runtime-relevant fragments of the
typescript-handbook repository, together with theorems settling the
specification claims about it.  Numbers are modelled as `Int` (every
numeric literal in the embedded code is an integer), the JavaScript
`undefined` string field of a fresh `Employee6` is modelled as `""`
(both are falsy), exceptions are modelled with `Except`, and
`console.log` output is collected in lists of strings.
-/

namespace TsSpec

/-! ### Accessors example (src/unnamed/part_000)

Embeds the module-level variable `passcode`, the class `Employee6`
with its `fullName` getter and setter, and the top-level statements
that exercise them. -/

/-- Initial value of the module-level variable `passcode`
(part_000 line 29). -/
def passcodeInit : String := "secret passcode"

/-- The class `Employee6` (part_000 lines 31-46): its only instance
field is the private `_fullName`.  A fresh instance leaves the field
`undefined`, modelled as `""`. -/
structure Employee6 where
  _fullName : String
deriving DecidableEq

/-- The `fullName` getter (part_000 lines 34-36): returns `_fullName`. -/
def Employee6.fullName (e : Employee6) : String := e._fullName

/-- The `fullName` setter (part_000 lines 38-45).  The guard
`passcode && passcode == "secret passcode"` tests truthiness of the
string (non-emptiness) and then equality.  The setter is a function of
the current value of the module-level `passcode`, the receiver, and the
new name; it returns the updated receiver together with the list of
`console.log` messages it emits. -/
def setFullName (passcode : String) (e : Employee6) (newName : String) :
    Employee6 × List String :=
  if passcode ≠ "" ∧ passcode = "secret passcode" then
    ({ e with _fullName := newName }, [])
  else
    (e, ["Error: Unauthorized update of employee!"])

/-! ### sumMatrix and sumMatrix1
(src/Handbook/Variable Declaration/var-declaration.ts lines 78-88 and
src/Handbook/Variable Declaration/let-declarations.ts lines 130-139) -/

/-- Inner row loop of `sumMatrix1`
(`for (let i = 0; i < currentRow.length; i++) { sum += currentRow[i]; }`,
let-declarations.ts lines 134-136).  The loop index is block-scoped, so
the loop is exactly a traversal of the row accumulating into `sum`. -/
def rowLoop : Int → List Int → Int
  | sum, [] => sum
  | sum, v :: rest => rowLoop (sum + v) rest

/-- Outer loop of `sumMatrix1`
(`for (let i = 0; i < matrix.length; i++)`, let-declarations.ts lines
132-137): the inner index shadows the outer one, so each row is summed
in full and the outer index advances one row at a time. -/
def sumMatrix1Go : Int → List (List Int) → Int
  | sum, [] => sum
  | sum, currentRow :: rest => sumMatrix1Go (rowLoop sum currentRow) rest

/-- The function `sumMatrix1` (let-declarations.ts lines 130-139). -/
def sumMatrix1 (matrix : List (List Int)) : Int := sumMatrix1Go 0 matrix

/-- Inner row loop of `sumMatrix` (var-declaration.ts lines 82-84).
Here `i` is the single function-scoped `var i` shared with the outer
loop, so the loop returns the final value of `i` (the row length)
together with the accumulated sum.  `fuel` bounds the number of
iterations; a call with `fuel > currentRow.length` runs the loop to
completion because `currentRow.get? i = none` exactly when the loop
condition `i < currentRow.length` fails. -/
def innerVarLoop (currentRow : List Int) : Nat → Nat → Int → Nat × Int
  | 0, i, sum => (i, sum)
  | fuel + 1, i, sum =>
    match currentRow.get? i with
    | some v => innerVarLoop currentRow fuel (i + 1) (sum + v)
    | none => (i, sum)

/-- Outer loop of `sumMatrix` (var-declaration.ts lines 80-85) with the
shared `var i`: the inner loop resets `i` to `0`, leaves it equal to the
row length, and the outer update then sets `i` to row length plus one.
Because the shared counter can cycle, the loop need not terminate;
`fuel` bounds the number of outer iterations and `none` means the fuel
ran out. -/
def sumMatrixLoop (matrix : List (List Int)) : Nat → Nat → Int → Option Int
  | 0, _, _ => none
  | fuel + 1, i, sum =>
    match matrix.get? i with
    | some currentRow =>
      let p := innerVarLoop currentRow (currentRow.length + 1) 0 sum
      sumMatrixLoop matrix fuel (p.1 + 1) p.2
    | none => some sum

/-- The function `sumMatrix` (var-declaration.ts lines 78-88), run with
the given amount of outer-loop fuel. -/
def sumMatrix (fuel : Nat) (matrix : List (List Int)) : Option Int :=
  sumMatrixLoop matrix fuel 0 0

/-! ### Top-level try/catch and the never-returning functions
(src/Handbook/Variable Declaration/let-declarations.ts lines 37-42,
src/Handbook/Basic Types/basic-types.ts lines 201-207) -/

/-- The body of the top-level `try` block
(`throw "oh no!";`, let-declarations.ts line 38). -/
def tryBody : Except String Unit := Except.error "oh no!"

/-- The whole top-level try/catch statement (let-declarations.ts lines
37-42): the thrown string is caught and the catch clause logs
`"Oh well."`.  The result is the list of logged messages. -/
def tryCatchBlock : List String :=
  match tryBody with
  | Except.error _e => ["Oh well."]
  | Except.ok _ => []

/-- The function `error` (basic-types.ts lines 201-203): it signals
failure by throwing, so its success type is `Empty`. -/
def error (message : String) : Except String Empty :=
  Except.error message

/-- The function `fail` (basic-types.ts lines 205-207). -/
def fail : Except String Empty :=
  error "Something failed"

/-! ### createSquare (src/Handbook/Interfaces/interfaces.ts lines 58-72) -/

/-- The interface `SquareConfig` (interfaces.ts lines 58-61): both
properties are optional. -/
structure SquareConfig where
  color : Option String
  width : Option Int
deriving DecidableEq

/-- The return shape `{color: string; area: number}` of `createSquare`. -/
structure Square where
  color : String
  area : Int
deriving DecidableEq

/-- The function `createSquare` (interfaces.ts lines 63-72): starts from
`{color: "white", area: 100}` and overwrites each field only when the
corresponding config property is truthy (present and, for the string, a
non-empty one; for the number, a nonzero one). -/
def createSquare (config : SquareConfig) : Square :=
  let newSquare : Square := { color := "white", area := 100 }
  let newSquare :=
    match config.color with
    | some c => if c ≠ "" then { newSquare with color := c } else newSquare
    | none => newSquare
  match config.width with
  | some w => if w ≠ 0 then { newSquare with area := w * w } else newSquare
  | none => newSquare

/-! ### Top-to-bottom evaluation of let-declarations.ts under ES2015
temporal-dead-zone semantics -/

/-- Abstract top-level statements of a script, as far as the let
bindings of the global scope are concerned.  Function declarations are
hoisted and have no effect until called, so they do not appear;
`exprRead x` is an expression statement whose evaluation reads the
let binding `x` (the call `foo1()` whose body returns `d`);
`pureCall` is a call that touches no top-level let binding;
`timeoutLoop` is the final scheduling loop. -/
inductive Stmt where
  | letDecl (x : String)
  | letInit (x : String)
  | exprRead (x : String)
  | tryThrowCatch (exn : String) (msg : String)
  | pureCall
  | timeoutLoop
deriving DecidableEq

/-- Evaluation state: the let bindings already initialized (every other
let binding of the script is in its temporal dead zone) and the log. -/
structure RunState where
  initialized : List String
  logs : List String
deriving DecidableEq

/-- One top-level statement.  Reading a let binding before its
declaration has executed throws a ReferenceError. -/
def runStmt (st : RunState) : Stmt → Except String RunState
  | Stmt.letDecl x => Except.ok { st with initialized := x :: st.initialized }
  | Stmt.letInit x => Except.ok { st with initialized := x :: st.initialized }
  | Stmt.exprRead x =>
    if st.initialized.contains x then Except.ok st
    else Except.error ("ReferenceError: Cannot access " ++ x ++ " before initialization")
  | Stmt.tryThrowCatch exn msg =>
    match (Except.error exn : Except String Unit) with
    | Except.error _e => Except.ok { st with logs := st.logs ++ [msg] }
    | Except.ok _ => Except.ok st
  | Stmt.pureCall => Except.ok st
  | Stmt.timeoutLoop => Except.ok st

/-- Sequential execution: an uncaught error aborts the rest of the script. -/
def runStmts (st : RunState) : List Stmt → Except String RunState
  | [] => Except.ok st
  | s :: rest =>
    match runStmt st s with
    | Except.ok st2 => runStmts st2 rest
    | Except.error e => Except.error e

/-- The top-level statements of let-declarations.ts in source order:
`let hello = "Hello!"` (line 9), the try/catch (lines 37-42), `let c`
(line 55), the call `foo1()` whose body reads `d` (line 69), `let d`
(line 70), `let x1 = 10` (line 92), the two calls of `fun1` (lines
121-122), and the setTimeout loop (lines 183-185). -/
def letDeclarationsTopLevel : List Stmt :=
  [ Stmt.letInit "hello",
    Stmt.tryThrowCatch "oh no!" "Oh well.",
    Stmt.letDecl "c",
    Stmt.exprRead "d",
    Stmt.letDecl "d",
    Stmt.letInit "x1",
    Stmt.pureCall,
    Stmt.pureCall,
    Stmt.timeoutLoop ]

/-! ### The files as scripts in one shared global scope -/

/-- The top-level runtime bindings a file declares: `lexNames` are the
lexically scoped ones (let, const, class) and `varNames` the
function-scoped ones (var, function declarations, enums). -/
structure ScriptFile where
  lexNames : List String
  varNames : List String
deriving DecidableEq

/-- Bindings already present in the shared global scope. -/
structure GlobalScope where
  lexBound : List String
  varBound : List String
deriving DecidableEq

/-- A script fails to instantiate in a scope exactly when one of its
lexical names is already bound (either way) or one of its var names is
already lexically bound; var-with-var and function-with-function
redeclarations are allowed. -/
def conflictsWith (fl : ScriptFile) (g : GlobalScope) : Bool :=
  fl.lexNames.any (fun x => g.lexBound.contains x || g.varBound.contains x) ||
  fl.varNames.any (fun x => g.lexBound.contains x)

/-- Evaluating one script: on a redeclaration conflict it fails and the
scope is unchanged, otherwise its bindings are added.  The boolean is
the observable per-file outcome. -/
def evalScript (g : GlobalScope) (fl : ScriptFile) : Bool × GlobalScope :=
  if conflictsWith fl g then (false, g)
  else (true, { lexBound := fl.lexNames ++ g.lexBound,
                varBound := fl.varNames ++ g.varBound })

/-- Evaluating a list of scripts in order from a scope. -/
def evalScripts (g : GlobalScope) : List ScriptFile → GlobalScope
  | [] => g
  | fl :: rest => evalScripts (evalScript g fl).2 rest

/-- Whether a file instantiates without a redeclaration error after the
given files have been evaluated in an initially empty global scope. -/
def linksAfter (pre : List ScriptFile) (fl : ScriptFile) : Bool :=
  (evalScript (evalScripts { lexBound := [], varBound := [] } pre) fl).1

/-- Top-level runtime bindings of src/Handbook/Basic Types/basic-types.ts. -/
def basicTypesFile : ScriptFile :=
  { lexNames := ["isDone", "decimal", "hex", "binary", "octal", "color",
      "fullName", "age", "sentence", "sentence1", "list", "list1", "x",
      "c", "c1", "c2", "colorName", "notSure", "prettySure", "list2",
      "unusable", "u", "n", "someValue", "strLength", "someValue1",
      "strLength1"],
    varNames := ["Color", "Color1", "Color2", "Color3", "warnUser",
      "error", "fail", "infiniteLoop"] }

/-- Top-level runtime bindings of
src/Handbook/Variable Declaration/var-declaration.ts. -/
def varDeclarationFile : ScriptFile :=
  { lexNames := [],
    varNames := ["a", "g", "f", "fu", "fun", "foo", "sumMatrix"] }

/-- Top-level runtime bindings of
src/Handbook/Variable Declaration/const-declarations.ts. -/
def constDeclarationsFile : ScriptFile :=
  { lexNames := ["numLivesForCat", "kitty"], varNames := [] }

/-- Top-level runtime bindings of
src/Handbook/Variable Declaration/let-declarations.ts. -/
def letDeclarationsFile : ScriptFile :=
  { lexNames := ["hello", "c", "d", "x1"],
    varNames := ["f1", "foo1", "f2", "fun1", "sumMatrix1",
      "theCityThatAlwaysSleeps"] }

/-- Top-level runtime bindings of
src/Handbook/Variable Declaration/let-vs-const.ts. -/
def letVsConstFile : ScriptFile :=
  { lexNames := ["input", "first", "second", "frst", "rest", "o", "a",
      "b", "f", "s", "bothPlus", "defaults", "search", "c1", "clone",
      "C1"],
    varNames := ["funct", "keepWholeObject", "fooBar", "fb", "fct"] }

/-- Top-level runtime bindings of src/Handbook/Classes/inheritance.ts. -/
def inheritanceFile : ScriptFile :=
  { lexNames := ["Animal", "Dog", "Animal1", "Snake", "Horse", "Greeter",
      "Greeter1", "Point", "dog", "sam", "tom", "greeter", "greeter1",
      "Greeter2", "greeter2", "point3d"],
    varNames := [] }

/-- Top-level runtime bindings of src/Handbook/Classes/modifiers.ts. -/
def modifiersFile : ScriptFile :=
  { lexNames := ["Animal2", "Animal3", "Animal4", "Rhino", "Employee",
      "Person", "Employee1", "Person1", "Employee2", "Octopus",
      "Octopus1", "animal", "rhino", "employee", "howard", "howard1",
      "dad"],
    varNames := [] }

/-- Top-level runtime bindings of
src/Handbook/Interfaces/indexable-types.ts. -/
def indexableTypesFile : ScriptFile :=
  { lexNames := ["myArray", "myStr", "Animal", "Dog", "myArray1",
      "mySearch", "mySearch1", "mySearch2"],
    varNames := [] }

/-- Top-level runtime bindings of src/Handbook/Interfaces/interfaces.ts. -/
def interfacesFile : ScriptFile :=
  { lexNames := ["myObj", "myObj1", "mySquare", "p1", "d", "ro"],
    varNames := ["printLabel", "printLabel1", "createSquare"] }

/-- Top-level runtime bindings of src/unnamed/part_000 (accessors). -/
def accessorsFile : ScriptFile :=
  { lexNames := ["Employee5", "employee5", "passcode", "Employee6",
      "employee6"],
    varNames := [] }

/-- Top-level runtime bindings of src/unnamed/part_001 (class types). -/
def classTypesFile : ScriptFile :=
  { lexNames := ["Clock", "Clock1", "DigitalClock", "AnalogClock",
      "digital", "analog", "square", "square1"],
    varNames := ["createClock"] }

/-- All eleven source files. -/
def allFiles : List ScriptFile :=
  [basicTypesFile, varDeclarationFile, constDeclarationsFile,
   letDeclarationsFile, letVsConstFile, inheritanceFile, modifiersFile,
   indexableTypesFile, interfacesFile, accessorsFile, classTypesFile]

/-! ### The kitty object
(src/Handbook/Variable Declaration/const-declarations.ts lines 7-31) -/

/-- The const `numLivesForCat` (const-declarations.ts line 7). -/
def numLivesForCat : Int := 9

/-- The shape of the `kitty` object. -/
structure Cat where
  name : String
  numLives : Int
deriving DecidableEq

/-- The object the const `kitty` is bound to when it is created
(const-declarations.ts lines 16-19). -/
def kitty0 : Cat := { name := "Aurora", numLives := numLivesForCat }

/-- The state of the `kitty` object after the top-level mutations
(const-declarations.ts lines 28-31): three assignments to `name` and
one decrement of `numLives`.  The const binding itself is never
re-assigned; only the object it refers to changes. -/
def kittyFinal : Cat :=
  let kitty := kitty0
  let kitty := { kitty with name := "Rory" }
  let kitty := { kitty with name := "Kitty" }
  let kitty := { kitty with name := "Cat" }
  { kitty with numLives := kitty.numLives - 1 }

/-! ### The setTimeout loop
(src/Handbook/Variable Declaration/let-declarations.ts lines 183-185) -/

/-- A timer task: the delay passed to `setTimeout` and the value the
deferred callback will log (the per-iteration binding of `i` that it
captured). -/
structure TimerTask where
  delay : Nat
  output : Nat
deriving DecidableEq

/-- The loop `for (let i = 0; i < 10; i++)
setTimeout(function() { console.log(i); }, 100 * i)`: `count` iterations
remain and `i` is the current per-iteration binding.  Each iteration
only appends a task to the timer queue; nothing runs now. -/
def setTimeoutLoopAux : Nat → Nat → List TimerTask → List TimerTask
  | 0, _, queue => queue
  | count + 1, i, queue =>
    setTimeoutLoopAux count (i + 1) (queue ++ [{ delay := 100 * i, output := i }])

/-- The timer queue after the loop has run its ten iterations. -/
def timeoutQueue : List TimerTask := setTimeoutLoopAux 10 0 []

/-- Running the deferred callbacks once the synchronous phase is over:
the queue is already in increasing-delay order, so the callbacks fire in
queue order, each logging its captured value. -/
def runDeferred (queue : List TimerTask) : List Nat :=
  queue.map (fun t => t.output)

/-! ### Helper lemmas -/

/-- The row loop of `sumMatrix1` adds the sum of the row to its
accumulator. -/
theorem rowLoop_eq (row : List Int) : ∀ sum : Int, rowLoop sum row = sum + row.sum := by
  induction row with
  | nil => intro sum; simp [rowLoop]
  | cons v rest ih => intro sum; rw [rowLoop, ih]; simp [List.sum_cons]; ring

/-- The outer loop of `sumMatrix1` adds the total of all rows to its
accumulator. -/
theorem sumMatrix1Go_eq (m : List (List Int)) :
    ∀ sum : Int, sumMatrix1Go sum m = sum + (m.map List.sum).sum := by
  induction m with
  | nil => intro sum; simp [sumMatrix1Go]
  | cons row rest ih =>
    intro sum
    rw [sumMatrix1Go, ih, rowLoop_eq]
    simp [List.sum_cons]
    ring

/-- The function `sumMatrix1` returns the sum of all elements of all
rows of its matrix argument. -/
theorem sumMatrix1_eq_total (matrix : List (List Int)) :
    sumMatrix1 matrix = (matrix.map List.sum).sum := by
  rw [sumMatrix1, sumMatrix1Go_eq]
  ring

/-! ### Claim theorems -/

/-- Claim C1 counterexample: the program does take error-handling
branches.  At concrete inputs, the top-level try/catch of
let-declarations.ts catches the exception it throws and its catch
branch logs; the `Employee6` setter called while `passcode` holds a
wrong value takes the branch that logs the unauthorized-update error;
and `fail` of basic-types.ts signals failure by returning the thrown
error of `error`. -/
theorem C1_counterexample :
    tryCatchBlock = ["Oh well."] ∧
    (setFullName "wrong passcode" { _fullName := "" } "Bob").2 =
      ["Error: Unauthorized update of employee!"] ∧
    fail = Except.error "Something failed" := by
  refine ⟨rfl, ?_, rfl⟩
  decide

/-- Claim C1 (amended): the program does contain failure-handling
logic.  The top-level try/catch of let-declarations.ts catches its own
thrown string and logs from the catch clause, `error` and `fail` of
basic-types.ts signal failure by throwing, and the `Employee6` setter
distinguishes a success path (matching passcode, no log) from a failure
path (non-matching passcode, error log). -/
theorem C1_failure_handling_present :
    tryCatchBlock = ["Oh well."] ∧
    (∀ msg : String, error msg = Except.error msg) ∧
    fail = Except.error "Something failed" ∧
    (∀ (e : Employee6) (n : String),
      (setFullName "secret passcode" e n).2 = [] ∧
      (setFullName "" e n).2 = ["Error: Unauthorized update of employee!"]) := by
  refine ⟨rfl, fun msg => rfl, rfl, fun e n => ⟨?_, ?_⟩⟩ <;> simp [setFullName]

/-- Claim C2: `sumMatrix1` (block-scoped loop indices) returns the sum
of all elements of all rows for every matrix, while `sumMatrix` (one
shared function-scoped `var i`) returns a different value on the matrix
`[[1, 1], [1, 1]]`: the inner loop leaves the shared counter at the row
length, so after the outer update the loop condition fails and only the
first row is summed, giving 2 instead of 4. -/
theorem C2_sumMatrix_shadowing :
    (∀ matrix : List (List Int), sumMatrix1 matrix = (matrix.map List.sum).sum) ∧
    sumMatrix 10 [[1, 1], [1, 1]] = some 2 ∧
    sumMatrix1 [[1, 1], [1, 1]] = 4 ∧
    sumMatrix 10 [[1, 1], [1, 1]] ≠ some (sumMatrix1 [[1, 1], [1, 1]]) := by
  refine ⟨sumMatrix1_eq_total, by decide, by decide, by decide⟩

/-- Claim C3 counterexample: noninterference with `passcode` as the
high input fails.  Two runs of the `Employee6` setter that differ only
in the value of `passcode` (the secret value versus a wrong one), with
the same receiver and argument, produce different results: one stores
the name silently, the other leaves the field and logs an error. -/
theorem C3_counterexample :
    setFullName "secret passcode" { _fullName := "" } "Bob" ≠
      setFullName "wrong passcode" { _fullName := "" } "Bob" := by
  decide

/-- Claim C3 (amended): every operation except the `Employee6` fullName
setter is independent of `passcode` (no other embedded operation reads
it), but the setter is not: with the secret passcode it stores the new
name and logs nothing, while with a wrong passcode it leaves the field
unchanged and logs an error, so the two runs always differ. -/
theorem C3_passcode_dependence :
    ∀ (e : Employee6) (n : String),
      (setFullName "secret passcode" e n).1._fullName = n ∧
      (setFullName "wrong passcode" e n).1._fullName = e._fullName ∧
      setFullName "secret passcode" e n ≠ setFullName "wrong passcode" e n := by
  intro e n
  refine ⟨by simp [setFullName], by simp [setFullName], fun h => ?_⟩
  have h2 := congrArg (fun p => p.2) h
  simp [setFullName] at h2

/-- Claim C4: the `Employee6` setter stores `newName` into `_fullName`
exactly when the module-level `passcode` equals "secret passcode" (the
truthiness conjunct of the guard is implied by the equality); otherwise
the field is unchanged, so a subsequent getter read returns the value
held before, and the error branch logs. -/
theorem C4_setter_passcode_guard :
    ∀ (pc : String) (e : Employee6) (n : String),
      (setFullName pc e n).1._fullName =
        (if pc = "secret passcode" then n else e._fullName) ∧
      (setFullName pc e n).1.fullName =
        (if pc = "secret passcode" then n else e.fullName) ∧
      (setFullName pc e n).2 =
        (if pc = "secret passcode" then []
         else ["Error: Unauthorized update of employee!"]) := by
  intro pc e n
  by_cases h : pc = "secret passcode"
  · subst h; simp [setFullName, Employee6.fullName]
  · simp [setFullName, Employee6.fullName, h]

/-- Claim C5: `createSquare` returns color equal to `config.color` when
that is a truthy (non-empty) string and "white" otherwise, and area
equal to `config.width * config.width` when that is a truthy (nonzero)
number and 100 otherwise; in particular a config with width 0 yields
area 100, not 0. -/
theorem C5_createSquare_defaults :
    (∀ config : SquareConfig,
      (createSquare config).color =
        (match config.color with
         | some c => if c ≠ "" then c else "white"
         | none => "white") ∧
      (createSquare config).area =
        (match config.width with
         | some w => if w ≠ 0 then w * w else 100
         | none => 100)) ∧
    createSquare { color := none, width := some 0 } =
      { color := "white", area := 100 } := by
  constructor
  · rintro ⟨color, width⟩
    rcases color with _ | c <;> rcases width with _ | w <;>
      refine ⟨?_, ?_⟩ <;> simp only [createSquare] <;> split_ifs <;> rfl
  · decide

/-- Claim C6 counterexample: the repository does contain a function
that consumes a structured collection of input data and computes an
aggregated result from it: on the concrete matrix `[[1, 2], [3, 4]]`,
`sumMatrix1` returns the sum of all elements of all rows, 10. -/
theorem C6_counterexample :
    sumMatrix1 [[1, 2], [3, 4]] = 10 ∧
    sumMatrix1 [[1, 2], [3, 4]] = ([[1, 2], [3, 4]].map List.sum).sum := by
  constructor <;> decide

/-- Claim C6 (amended): the repository does define a small data
aggregation function: `sumMatrix1` consumes a matrix, a list of rows of
numbers, and returns the sum of all its elements; there is no larger
multi-stage pipeline beyond this single demonstration function and its
buggy `var` twin. -/
theorem C6_sumMatrix1_aggregates :
    ∀ matrix : List (List Int), sumMatrix1 matrix = (matrix.map List.sum).sum :=
  sumMatrix1_eq_total

/-- Claim C7 counterexample: evaluating let-declarations.ts from top to
bottom does not complete.  Under ES2015 temporal-dead-zone semantics
the top-level call `foo1()` reads the let binding `d` before the
statement `let d;` has executed, so the run aborts with a
ReferenceError. -/
theorem C7_counterexample :
    runStmts { initialized := [], logs := [] } letDeclarationsTopLevel =
      Except.error "ReferenceError: Cannot access d before initialization" := by
  rfl

/-- Claim C7 (amended): evaluation of let-declarations.ts proceeds
normally through the try/catch (whose exception is caught, leaving the
log "Oh well.") and the declaration of `c`, and then throws an uncaught
ReferenceError at the top-level call `foo1()` placed before the
declaration of `d`, exactly as the comment in the file states; the
statements after that call never run. -/
theorem C7_tdz_reference_error :
    runStmts { initialized := [], logs := [] } (letDeclarationsTopLevel.take 3) =
      Except.ok { initialized := ["c", "hello"], logs := ["Oh well."] } ∧
    runStmts { initialized := [], logs := [] } letDeclarationsTopLevel =
      Except.error "ReferenceError: Cannot access d before initialization" := by
  exact ⟨rfl, rfl⟩

/-- Claim C8 counterexample: the observable result of a file depends on
whether another file has been evaluated before it in the shared global
scope: let-vs-const.ts instantiates cleanly in an empty scope but fails
with a redeclaration error after var-declaration.ts has run, because
both declare the top-level names `a` and `f`. -/
theorem C8_counterexample :
    linksAfter [] letVsConstFile = true ∧
    linksAfter [varDeclarationFile] letVsConstFile = false := by
  constructor <;> decide

/-- Claim C8 (amended): each file evaluated alone in an empty global
scope instantiates without a redeclaration error, but the files are not
mutually independent in one shared scope: their top-level name sets
overlap (var-declaration.ts and let-vs-const.ts both declare `a` and
`f`, inheritance.ts and indexable-types.ts both declare the classes
`Animal` and `Dog`, basic-types.ts and let-declarations.ts both declare
`c`, let-declarations.ts and interfaces.ts both declare `d`), so for a
colliding pair whichever file is evaluated second fails, and evaluation
of distinct files does not commute. -/
theorem C8_name_collisions :
    allFiles.all (fun fl => linksAfter [] fl) = true ∧
    varDeclarationFile.varNames.contains "a" = true ∧
    letVsConstFile.lexNames.contains "a" = true ∧
    varDeclarationFile.varNames.contains "f" = true ∧
    letVsConstFile.lexNames.contains "f" = true ∧
    inheritanceFile.lexNames.contains "Animal" = true ∧
    indexableTypesFile.lexNames.contains "Animal" = true ∧
    basicTypesFile.lexNames.contains "c" = true ∧
    letDeclarationsFile.lexNames.contains "c" = true ∧
    letDeclarationsFile.lexNames.contains "d" = true ∧
    interfacesFile.lexNames.contains "d" = true ∧
    linksAfter [varDeclarationFile] letVsConstFile = false ∧
    linksAfter [letVsConstFile] varDeclarationFile = false ∧
    linksAfter [inheritanceFile] indexableTypesFile = false := by
  refine ⟨by decide, by decide, by decide, by decide, by decide, by decide,
    by decide, by decide, by decide, by decide, by decide, by decide,
    by decide, by decide⟩

/-- Claim C9 counterexample: a value written by one operation is
observed by a later, separately invoked operation: after the setter run
`employee6.fullName = "Ashwani Luhaniwal"` (with the initial passcode),
the separate getter read returns the written name; and the top-level
statements of const-declarations.ts leave the module-level `kitty`
object different from the object it was created as. -/
theorem C9_counterexample :
    ((setFullName "secret passcode" { _fullName := "" } "Ashwani Luhaniwal").1).fullName =
      "Ashwani Luhaniwal" ∧
    kittyFinal ≠ kitty0 := by
  constructor <;> decide

/-- Claim C9 (amended): the program does maintain mutable module-level
state within a file: the `Employee6` setter stores into the private
field and every later getter read observes the stored value, and the
top-level statements of const-declarations.ts mutate the object bound
by the const `kitty` from name "Aurora" with 9 lives to name "Cat" with
8 lives (the const binding itself is never re-assigned). -/
theorem C9_mutable_state :
    (∀ (e : Employee6) (n : String),
      ((setFullName "secret passcode" e n).1).fullName = n) ∧
    kittyFinal = { name := "Cat", numLives := 8 } ∧
    kitty0 = { name := "Aurora", numLives := 9 } := by
  refine ⟨fun e n => ?_, by decide, by decide⟩
  simp [setFullName, Employee6.fullName]

/-- Claim C10 counterexample: the program does defer execution: the
setTimeout loop at the end of let-declarations.ts schedules ten
callbacks on the timer queue instead of running them, so after the loop
the queue of deferred tasks is non-empty. -/
theorem C10_counterexample :
    timeoutQueue.length = 10 ∧ timeoutQueue ≠ [] := by
  constructor <;> decide

/-- Claim C10 (amended): the only deferred execution in the repository
is the setTimeout loop of let-declarations.ts: it schedules exactly ten
callbacks with delays 100 times their iteration index, each capturing
its own per-iteration binding of `i`; the delays are non-decreasing, so
after the synchronous phase the callbacks fire in queue order and log
0 through 9.  All other embedded execution is sequential. -/
theorem C10_setTimeout_defers :
    timeoutQueue =
      [ { delay := 0, output := 0 }, { delay := 100, output := 1 },
        { delay := 200, output := 2 }, { delay := 300, output := 3 },
        { delay := 400, output := 4 }, { delay := 500, output := 5 },
        { delay := 600, output := 6 }, { delay := 700, output := 7 },
        { delay := 800, output := 8 }, { delay := 900, output := 9 } ] ∧
    runDeferred timeoutQueue = [0, 1, 2, 3, 4, 5, 6, 7, 8, 9] ∧
    timeoutQueue.map TimerTask.delay =
      [0, 100, 200, 300, 400, 500, 600, 700, 800, 900] := by
  refine ⟨by decide, by decide, by decide⟩

end TsSpec
